import Mathlib

/-!
Shallow embedding of the PubMed literature-search core of
`src/streamlit_app.py`: the structured-mode query builder (`main`,
lines 198-208), the id-list extraction of `PubMedAPI.search_studies`
(lines 32-44), the XML batch loop of `PubMedAPI.fetch_article_details`
(lines 46-77) and the per-article parser `PubMedAPI._parse_article`
(lines 79-127), together with theorems settling the frozen claims.

XML element trees are modelled as a tag, an optional text (Python
`ElementTree` gives `text = None` for an element parsed without text)
and a list of children.  Python exceptions that escape a `try` block
are modelled with `Except`; the `except` clauses of the source catch
only `requests.exceptions.RequestException`, so other exception kinds
propagate to the caller.
-/

/-- An XML element as produced by `xml.etree.ElementTree`: a tag, the
optional text content, and the child elements in document order. -/
inductive Element where
  | mk (tag : String) (text : Option String) (children : List Element)

def Element.tag : Element → String
  | .mk t _ _ => t

def Element.text : Element → Option String
  | .mk _ x _ => x

def Element.children : Element → List Element
  | .mk _ _ c => c

mutual

/-- Proper descendants of an element in document (pre-)order. -/
def Element.descendants : Element → List Element
  | .mk _ _ cs => descendantList cs

/-- All elements of a list in document (pre-)order: each element of the
list followed by its own descendants. -/
def descendantList : List Element → List Element
  | [] => []
  | c :: rest => c :: (Element.descendants c ++ descendantList rest)

end

/-- Model of `elem.findall(".//tag")`: every proper descendant with the
given tag, in document order. -/
def findAllDesc (e : Element) (t : String) : List Element :=
  e.descendants.filter (fun c => c.tag = t)

/-- Model of `elem.find(".//tag")`: the first proper descendant with
the given tag, if any. -/
def findDesc (e : Element) (t : String) : Option Element :=
  (findAllDesc e t).head?

/-- Model of `elem.find("tag")`: the first direct child with the given
tag. -/
def findChild (e : Element) (t : String) : Option Element :=
  (e.children.filter (fun c => c.tag = t)).head?

/-- Model of `elem.find(".//t1/t2")`: the first `t2` child of a proper
descendant tagged `t1`, in the order `iterfind` produces. -/
def findDescChild (e : Element) (t1 t2 : String) : Option Element :=
  ((e.descendants.filter (fun a => a.tag = t1)).flatMap
    (fun a => a.children.filter (fun c => c.tag = t2))).head?

/-- Python `x or d` for `x : Optional[str]`: both `None` and the empty
string are falsy and fall back to the default. -/
def pyOr (x : Option String) (d : String) : String :=
  match x with
  | none => d
  | some s => if s = "" then d else s

/-- Python `f"...{x}..."` interpolation of an `Optional[str]`: `None`
renders as the literal string `None`. -/
def pyStr : Option String → String
  | none => "None"
  | some s => s

/-- The dictionary `_parse_article` builds for one article.  Fields the
source can leave as Python `None` are `Option String`; fields the
source always sets to a string are `String`. -/
structure Article where
  pmid : Option String
  title : String
  abstract : String
  authors : List String
  journal : Option String
  publication_date : Option String
  keywords : List String
deriving Repr, DecidableEq

/-- The per-author step of `_parse_article` (lines 100-105): an entry
is appended only when both the `LastName` and `ForeName` child elements
exist, formatted with an f-string over their (possibly `None`) texts. -/
def parseAuthorEntry (author : Element) : Option String :=
  match findChild author "LastName", findChild author "ForeName" with
  | some l, some f => some (pyStr l.text ++ " " ++ pyStr f.text)
  | _, _ => none

/-- Model of `PubMedAPI._parse_article` (lines 79-127).  The `try` block raises
`AttributeError` exactly when `find(".//PMID")` or
`find(".//ArticleTitle")` returns `None` and `.text` is taken; the
`except Exception` handler turns that into a `None` return, modelled
as `none`.  All other field accesses are guarded in the source and
raise nothing. -/
def parseArticle (article : Element) : Option Article :=
  match findDesc article "PMID" with
  | none => none
  | some pmidEl =>
    match findDesc article "ArticleTitle" with
    | none => none
    | some titleEl =>
      some
        { pmid := pmidEl.text
          title := pyOr titleEl.text "No title available"
          abstract :=
            match findDescChild article "Abstract" "AbstractText" with
            | some a => pyOr a.text ""
            | none => ""
          authors := (findAllDesc article "Author").filterMap parseAuthorEntry
          journal :=
            match findDescChild article "Journal" "Title" with
            | some j => j.text
            | none => some ""
          publication_date :=
            match findDesc article "PubDate" with
            | some pd =>
              match findChild pd "Year" with
              | some y => y.text
              | none => some ""
            | none => some ""
          keywords := (findAllDesc article "Keyword").filterMap
            (fun k =>
              match k.text with
              | some s => if s = "" then none else some s
              | none => none) }

/-- The batch loop of `fetch_article_details` (lines 68-71): parse each
article node in order, keeping the non-`None` results. -/
def fetchLoop (articleNodes : List Element) : List Article :=
  articleNodes.filterMap parseArticle

/-- Lines 65-73: collect every `PubmedArticle` descendant of the parsed
root and run the batch loop over them. -/
def parseArticles (root : Element) : List Article :=
  fetchLoop (findAllDesc root "PubmedArticle")

/-- Exception kinds the modelled code can raise past an `except`
clause.  The source only ever catches `requests.exceptions.RequestException`,
so these all escape to the caller. -/
inductive PyExn where
  | attributeError
  | typeError
  | keyError
  | parseError
deriving Repr, DecidableEq

/-- A JSON value as returned by `response.json()`. -/
inductive Json where
  | jnull
  | jbool (b : Bool)
  | jnum (n : Int)
  | jstr (s : String)
  | jarr (elems : List Json)
  | jobj (fields : List (String × Json))

/-- Python `==` between a JSON value and a string: only equal strings
compare equal. -/
def jsonEqStr (j : Json) (k : String) : Bool :=
  match j with
  | .jstr s => s = k
  | _ => false

/-- Substring test, for Python `needle in haystack` on strings. -/
def strContains (hay needle : String) : Bool :=
  (List.range (hay.length + 1)).any (fun i => needle.isPrefixOf (hay.drop i))

/-- Python `k in j` for a string `k`: key membership for dicts, element
membership for lists, substring for strings, `TypeError` otherwise. -/
def pyIn (k : String) (j : Json) : Except PyExn Bool :=
  match j with
  | .jobj fields => .ok (fields.any (fun f => f.1 = k))
  | .jarr elems => .ok (elems.any (fun e => jsonEqStr e k))
  | .jstr s => .ok (strContains s k)
  | _ => .error .typeError

/-- Python `j[k]` for a string key: dict lookup (`KeyError` when the
key is missing), `TypeError` on every non-dict. -/
def pySubscr (j : Json) (k : String) : Except PyExn Json :=
  match j with
  | .jobj fields =>
    match fields.find? (fun f => f.1 = k) with
    | some f => .ok f.2
    | none => .error .keyError
  | _ => .error .typeError

/-- Python `j.get(k, d)`: only dicts have a `get` method, every other
value raises `AttributeError`. -/
def pyGet (j : Json) (k : String) (d : Json) : Except PyExn Json :=
  match j with
  | .jobj fields =>
    match fields.find? (fun f => f.1 = k) with
    | some f => .ok f.2
    | none => .ok d
  | _ => .error .attributeError

/-- Python truthiness of a JSON value, for `if not id_list`. -/
def pyTruthy : Json → Bool
  | .jnull => false
  | .jbool b => b
  | .jnum n => n ≠ 0
  | .jstr s => s ≠ ""
  | .jarr elems => !elems.isEmpty
  | .jobj fields => !fields.isEmpty

/-- Python string content of a JSON value: `some` only on strings. -/
def asPyString : Json → Option String
  | .jstr s => some s
  | _ => none

/-- Python `",".join(x)` (line 54): joins a list of strings
(`TypeError` if an element is not a string), the characters of a
string, or the keys of a dict; `TypeError` on non-iterables. -/
def joinIds : Json → Except PyExn String
  | .jarr elems =>
    match elems.mapM asPyString with
    | some ss => .ok (String.intercalate "," ss)
    | none => .error .typeError
  | .jstr s => .ok (String.intercalate "," (s.data.map (fun c => String.singleton c)))
  | .jobj fields => .ok (String.intercalate "," (fields.map (fun f => f.1)))
  | _ => .error .typeError

/-- The id-list extraction of `search_studies` (lines 37-40): when the
top level contains `esearchresult`, read `idlist` from it with an
empty-list default; otherwise the id list is empty.  Subscription and
`.get` follow Python semantics, so a non-dict `esearchresult` value
raises `AttributeError`, which the surrounding
`except requests.exceptions.RequestException` does not catch. -/
def parseIdList (j : Json) : Except PyExn Json :=
  match pyIn "esearchresult" j with
  | .error e => .error e
  | .ok true =>
    match pySubscr j "esearchresult" with
    | .error e => .error e
    | .ok sub => pyGet sub "idlist" (Json.jarr [])
  | .ok false => .ok (Json.jarr [])

/-- Outcome of the `requests.get` + `raise_for_status` + `ET.fromstring`
sequence of `fetch_article_details`: the request itself may raise
`RequestException`, and a delivered body may fail XML parsing. -/
inductive XmlBody where
  | malformed
  | parsed (root : Element)

/-- See `XmlBody`: the request may raise, or deliver a body. -/
inductive HttpOutcome where
  | requestFailure (msg : String)
  | response (body : XmlBody)

/-- Outcome of the `requests.get` + `raise_for_status` + `response.json()`
sequence of `search_studies`.  A body that is not valid JSON raises
`requests.exceptions.JSONDecodeError`, a `RequestException` subclass,
so it is folded into `requestFailure`. -/
inductive JsonOutcome where
  | requestFailure (msg : String)
  | response (j : Json)

/-- What one call of `search_studies` or `fetch_article_details` does:
the messages passed to `st.error`, and either a returned value or an
exception escaping to the caller. -/
structure CallResult (α : Type) where
  errors : List String
  outcome : Except PyExn α

/-- Model of `PubMedAPI.fetch_article_details` (lines 46-77).  An empty id list
returns `[]` before any request; the comma-join of the ids happens
while building `params`, before the request; `RequestException` is
caught and reported; a top-level XML parse failure raises
`xml.etree.ElementTree.ParseError`, which is not a `RequestException`
and escapes. -/
def fetchArticleDetails (idList : Json) (http : HttpOutcome) :
    CallResult (List Article) :=
  if pyTruthy idList = false then ⟨[], .ok []⟩
  else
    match joinIds idList with
    | .error e => ⟨[], .error e⟩
    | .ok _ =>
      match http with
      | .requestFailure msg =>
        ⟨["Error fetching article details: " ++ msg], .ok []⟩
      | .response .malformed => ⟨[], .error .parseError⟩
      | .response (.parsed root) => ⟨[], .ok (parseArticles root)⟩

/-- Model of `PubMedAPI.search_studies` (lines 18-44).  `query` and
`max_results` are only forwarded to the upstream service as the `term`
and `retmax` request parameters; the local code never truncates with
them.  `RequestException` (including malformed JSON) is caught and
reported; exceptions raised by the id-list extraction or by the nested
`fetch_article_details` call are not `RequestException` and escape. -/
def searchStudies (query : String) (max_results : Nat)
    (search : JsonOutcome) (fetchHttp : HttpOutcome) :
    CallResult (List Article) :=
  match search with
  | .requestFailure msg => ⟨["Error searching PubMed: " ++ msg], .ok []⟩
  | .response j =>
    match pyIn "esearchresult" j with
    | .error e => ⟨[], .error e⟩
    | .ok true =>
      match pySubscr j "esearchresult" with
      | .error e => ⟨[], .error e⟩
      | .ok sub =>
        match pyGet sub "idlist" (Json.jarr []) with
        | .error e => ⟨[], .error e⟩
        | .ok ids => fetchArticleDetails ids fetchHttp
    | .ok false => ⟨[], .ok []⟩

/-- The structured-mode query construction of `main` (lines 198-208):
with a non-empty condition selection, build the parenthesized OR of
conditions, the fixed MeSH qualifier, optionally the parenthesized OR
of study types tagged `[Publication Type]`, and the publication-date
range, joined by `" AND "`; with no conditions the query is empty. -/
def buildSearchQuery (conditions study_type : List String)
    (yearLo yearHi : Nat) : String :=
  if conditions ≠ [] then
    let query_parts : List String :=
      ["(" ++ String.intercalate " OR " conditions ++ ")",
       "ophthalmology[MeSH Terms]"]
    let query_parts :=
      if study_type ≠ [] then
        query_parts ++
          ["(" ++ String.intercalate " OR "
            (study_type.map (fun t => t ++ "[Publication Type]")) ++ ")"]
      else query_parts
    let query_parts :=
      query_parts ++
        [toString yearLo ++ ":" ++ toString yearHi ++ "[Publication Date]"]
    String.intercalate " AND " query_parts
  else ""

/-- What the search button handler does with the built query
(lines 218-221 and 270-271): a truthy query starts the search, an
empty query only warns the user. -/
inductive SearchAction where
  | performSearch (query : String)
  | warnEmptyQuery
deriving Repr, DecidableEq

/-- Lines 218-221: `if search_query:` guards the call to
`search_studies`; the falsy (empty) query falls to `st.warning`. -/
def searchButtonAction (search_query : String) : SearchAction :=
  if search_query ≠ "" then .performSearch search_query else .warnEmptyQuery

/-- Spec-side description of the structured-mode clause list (spec
section 4.1, steps 1-5): one clause per non-empty input category, in
the fixed order conditions, domain qualifier, study types (only when
some were selected), year range. -/
def specStructuredClauses (conditions study_type : List String)
    (yearLo yearHi : Nat) : List String :=
  ["(" ++ String.intercalate " OR " conditions ++ ")",
   "ophthalmology[MeSH Terms]"]
  ++ (if study_type ≠ [] then
        ["(" ++ String.intercalate " OR "
          (study_type.map (fun t => t ++ "[Publication Type]")) ++ ")"]
      else [])
  ++ [toString yearLo ++ ":" ++ toString yearHi ++ "[Publication Date]"]

/-- Concrete article with identifier and title, first of the C2 batch. -/
def c2Art1 : Element :=
  Element.mk "PubmedArticle" none
    [Element.mk "PMID" (some "11111") [],
     Element.mk "ArticleTitle" (some "First") []]

/-- Concrete article without any identifier element, second of the C2
batch. -/
def c2ArtNoId : Element :=
  Element.mk "PubmedArticle" none
    [Element.mk "ArticleTitle" (some "Second") []]

/-- Concrete article with identifier and title, third of the C2 batch. -/
def c2Art3 : Element :=
  Element.mk "PubmedArticle" none
    [Element.mk "PMID" (some "33333") [],
     Element.mk "ArticleTitle" (some "Third") []]

/-- The record `_parse_article` builds for `c2Art1`. -/
def c2Rec1 : Article :=
  { pmid := some "11111", title := "First", abstract := "", authors := [],
    journal := some "", publication_date := some "", keywords := [] }

/-- The record `_parse_article` builds for `c2Art3`. -/
def c2Rec3 : Article :=
  { pmid := some "33333", title := "Third", abstract := "", authors := [],
    journal := some "", publication_date := some "", keywords := [] }

/-- Concrete article whose `PMID` element is present but has no text,
while the title is present. -/
def c3CexArt : Element :=
  Element.mk "PubmedArticle" none
    [Element.mk "PMID" none [],
     Element.mk "ArticleTitle" (some "T") []]

/-- Concrete article without any `PMID` element. -/
def c3WitArt : Element :=
  Element.mk "PubmedArticle" none
    [Element.mk "ArticleTitle" (some "T") []]

/-- Concrete article with an identifier but no `ArticleTitle` element
anywhere. -/
def c4CexArt : Element :=
  Element.mk "PubmedArticle" none
    [Element.mk "PMID" (some "44444") []]

/-- Concrete article with an identifier and an `ArticleTitle` element
that carries no text. -/
def c4WitArt : Element :=
  Element.mk "PubmedArticle" none
    [Element.mk "PMID" (some "44444") [],
     Element.mk "ArticleTitle" none []]

/-- Concrete article whose single author node has `LastName` and
`ForeName` elements that both carry no text. -/
def c8CexArt : Element :=
  Element.mk "PubmedArticle" none
    [Element.mk "PMID" (some "88888") [],
     Element.mk "ArticleTitle" (some "T") [],
     Element.mk "AuthorList" none
       [Element.mk "Author" none
         [Element.mk "LastName" none [],
          Element.mk "ForeName" none []]]]

/-- Concrete search payload whose id list holds two ids. -/
def c9SearchJson : Json :=
  Json.jobj [("esearchresult",
    Json.jobj [("idlist", Json.jarr [Json.jstr "1", Json.jstr "2"])])]

/-- Concrete fetch payload with two parseable article nodes. -/
def c9Root : Element :=
  Element.mk "PubmedArticleSet" none
    [Element.mk "PubmedArticle" none
       [Element.mk "PMID" (some "1") [],
        Element.mk "ArticleTitle" (some "A") []],
     Element.mk "PubmedArticle" none
       [Element.mk "PMID" (some "2") [],
        Element.mk "ArticleTitle" (some "B") []]]

/-- The two records parsed out of `c9Root`. -/
def c9Recs : List Article :=
  [{ pmid := some "1", title := "A", abstract := "", authors := [],
     journal := some "", publication_date := some "", keywords := [] },
   { pmid := some "2", title := "B", abstract := "", authors := [],
     journal := some "", publication_date := some "", keywords := [] }]

/-- Concrete article whose `Journal` element has a `Title` child with
no text. -/
def c10Art : Element :=
  Element.mk "PubmedArticle" none
    [Element.mk "PMID" (some "10") [],
     Element.mk "ArticleTitle" (some "T") [],
     Element.mk "Journal" none [Element.mk "Title" none []]]

/-- The record `_parse_article` builds for `c10Art`: its journal field
is Python `None`. -/
def c10Rec : Article :=
  { pmid := some "10", title := "T", abstract := "", authors := [],
    journal := none, publication_date := some "", keywords := [] }

/-- Helper: an article without a `PMID` descendant is dropped: the
`.text` access on line 84 raises `AttributeError` and the handler of
line 125 returns `None`. -/
theorem parseArticle_none_of_missing_pmid (a : Element)
    (h : findDesc a "PMID" = none) : parseArticle a = none := by
  simp [parseArticle, h]

/-- Helper: with both mandatory elements located, `_parse_article`
emits the record with the field values of lines 83-121. -/
theorem parseArticle_some (a pm t : Element)
    (hp : findDesc a "PMID" = some pm)
    (ht : findDesc a "ArticleTitle" = some t) :
    parseArticle a = some
      { pmid := pm.text
        title := pyOr t.text "No title available"
        abstract :=
          match findDescChild a "Abstract" "AbstractText" with
          | some ab => pyOr ab.text ""
          | none => ""
        authors := (findAllDesc a "Author").filterMap parseAuthorEntry
        journal :=
          match findDescChild a "Journal" "Title" with
          | some j => j.text
          | none => some ""
        publication_date :=
          match findDesc a "PubDate" with
          | some pd =>
            match findChild pd "Year" with
            | some y => y.text
            | none => some ""
          | none => some ""
        keywords := (findAllDesc a "Keyword").filterMap
          (fun k =>
            match k.text with
            | some s => if s = "" then none else some s
            | none => none) } := by
  simp [parseArticle, hp, ht]

/-- Helper: the accumulator form of mapping string extraction over a
list of JSON strings. -/
theorem mapM_loop_asPyString (ss acc : List String) :
    List.mapM.loop asPyString (ss.map Json.jstr) acc =
      some (acc.reverse ++ ss) := by
  induction ss generalizing acc with
  | nil => simp [List.mapM.loop]
  | cons a as ih => simp [List.mapM.loop, asPyString, ih]

/-- Helper: mapping string extraction over a list of JSON strings
recovers the strings. -/
theorem mapM_asPyString (ss : List String) :
    (ss.map Json.jstr).mapM asPyString = some ss := by
  simp [List.mapM, mapM_loop_asPyString]

/-- Helper: joining a JSON array of strings succeeds. -/
theorem joinIds_strings (ss : List String) :
    joinIds (Json.jarr (ss.map Json.jstr)) =
      Except.ok (String.intercalate "," ss) := by
  simp [joinIds, List.mapM, mapM_loop_asPyString]

/-- Helper: on a non-empty list of string ids, `fetch_article_details`
reaches the request and behaves by the HTTP outcome. -/
theorem fetchArticleDetails_strings (ss : List String) (h : ss ≠ [])
    (http : HttpOutcome) :
    fetchArticleDetails (Json.jarr (ss.map Json.jstr)) http =
      match http with
      | .requestFailure msg =>
        ⟨["Error fetching article details: " ++ msg], .ok []⟩
      | .response .malformed => ⟨[], .error .parseError⟩
      | .response (.parsed root) => ⟨[], .ok (parseArticles root)⟩ := by
  have hne : (ss.map Json.jstr).isEmpty = false := by
    cases ss with
    | nil => exact absurd rfl h
    | cons a as => rfl
  simp [fetchArticleDetails, pyTruthy, hne, joinIds_strings]

/-- Claim C1: for every structured-mode input with a non-empty
condition set, the built query string is exactly the `" AND "`-join of
one clause per non-empty category, in the fixed order: parenthesized
OR of the conditions, the qualifier `ophthalmology[MeSH Terms]`, the
parenthesized OR of study types each tagged `[Publication Type]`
(present only when study types were selected), and the
`yMin:yMax[Publication Date]` range clause. -/
theorem c1_structured_query_clauses (conditions study_type : List String)
    (yearLo yearHi : Nat) (h : conditions ≠ []) :
    buildSearchQuery conditions study_type yearLo yearHi =
      String.intercalate " AND "
        (specStructuredClauses conditions study_type yearLo yearHi) := by
  simp only [buildSearchQuery, specStructuredClauses, if_pos h]
  by_cases hs : study_type = []
  · simp [hs]
  · simp [hs]

/-- Witness for C1 at a concrete structured-mode input. -/
theorem c1_witness :
    buildSearchQuery ["Glaucoma", "Cataracts"] ["Review"] 2015 2025 =
      String.intercalate " AND "
        (specStructuredClauses ["Glaucoma", "Cataracts"] ["Review"] 2015 2025) :=
  c1_structured_query_clauses ["Glaucoma", "Cataracts"] ["Review"] 2015 2025
    (by decide)

/-- Claim C2: an article node lacking an identifier element produces no
record, the failure stays inside the per-article handler, the batch
continues with the remaining nodes in order, and the 3-node batch whose
second node lacks an identifier yields exactly the first and third
records. -/
theorem c2_missing_id_skipped (pre post : List Element) (a a1 a3 : Element)
    (r1 r3 : Article) (h : findDesc a "PMID" = none)
    (h1 : parseArticle a1 = some r1) (h3 : parseArticle a3 = some r3) :
    fetchLoop (pre ++ a :: post) = fetchLoop pre ++ fetchLoop post ∧
    fetchLoop [a1, a, a3] = [r1, r3] := by
  have ha := parseArticle_none_of_missing_pmid a h
  constructor
  · simp [fetchLoop, List.filterMap_append, ha]
  · simp [fetchLoop, ha, h1, h3]

/-- Witness for C2: the concrete 3-node batch. -/
theorem c2_witness :
    fetchLoop [c2Art1, c2ArtNoId, c2Art3] = [c2Rec1, c2Rec3] :=
  (c2_missing_id_skipped [] [] c2ArtNoId c2Art1 c2Art3 c2Rec1 c2Rec3
    rfl rfl rfl).2

/-- Claim C6: structured mode with an empty condition set builds the
empty query string, and the search button handler treats an empty
query as the guarded state: it warns instead of searching. -/
theorem c6_empty_conditions_guard (study_type : List String)
    (yearLo yearHi : Nat) :
    buildSearchQuery [] study_type yearLo yearHi = "" ∧
    searchButtonAction (buildSearchQuery [] study_type yearLo yearHi) =
      SearchAction.warnEmptyQuery := by
  constructor
  · simp [buildSearchQuery]
  · simp [buildSearchQuery, searchButtonAction]

/-- Claim C3 counterexample: an article whose identifier element is
present but carries no text is not dropped: a record is emitted and
its id is Python `None`. -/
theorem c3_counterexample :
    (parseArticle c3CexArt).isSome = true ∧
    (parseArticle c3CexArt).map Article.pmid = some none :=
  ⟨rfl, rfl⟩

/-- Claim C3 amended: a record is emitted only when the identifier
element is located (an article with no identifier element anywhere is
dropped), and the emitted id is that element's text, which is null
when the element carries no text rather than the record being
dropped. -/
theorem c3_amended_id_from_located_element (a : Element) :
    (findDesc a "PMID" = none → parseArticle a = none) ∧
    (∀ r, parseArticle a = some r →
      ∃ e, findDesc a "PMID" = some e ∧ r.pmid = e.text) := by
  constructor
  · intro h
    exact parseArticle_none_of_missing_pmid a h
  · intro r hr
    cases hp : findDesc a "PMID" with
    | none => rw [parseArticle_none_of_missing_pmid a hp] at hr; cases hr
    | some e =>
      refine ⟨e, rfl, ?_⟩
      cases ht : findDesc a "ArticleTitle" with
      | none => simp [parseArticle, hp, ht] at hr
      | some t =>
        rw [parseArticle_some a e t hp ht] at hr
        have hre := Option.some.inj hr
        subst hre
        rfl

/-- Witness for C3 amended: the article with no identifier element is
dropped. -/
theorem c3_witness : parseArticle c3WitArt = none :=
  (c3_amended_id_from_located_element c3WitArt).1 rfl

/-- Claim C4 counterexample: an article that has an identifier but no
title element anywhere is dropped entirely instead of being emitted
with the placeholder title. -/
theorem c4_counterexample :
    findDesc c4CexArt "PMID" = some (Element.mk "PMID" (some "44444") []) ∧
    findDesc c4CexArt "ArticleTitle" = none ∧
    parseArticle c4CexArt = none :=
  ⟨rfl, rfl, rfl⟩

/-- Claim C4 amended: for an article with an identifier, the record is
emitted with the placeholder title when the title element is present
without text (or with empty text); when the title element is absent
entirely, the article is dropped like one without an identifier. -/
theorem c4_amended_placeholder_title (a e t : Element)
    (hp : findDesc a "PMID" = some e) :
    (findDesc a "ArticleTitle" = none → parseArticle a = none) ∧
    (findDesc a "ArticleTitle" = some t →
      t.text = none ∨ t.text = some "" →
      ∃ r, parseArticle a = some r ∧ r.title = "No title available") := by
  constructor
  · intro ht
    simp [parseArticle, hp, ht]
  · intro ht htext
    refine ⟨_, parseArticle_some a e t hp ht, ?_⟩
    cases htext with
    | inl h0 => simp [pyOr, h0]
    | inr h0 => simp [pyOr, h0]

/-- Witness for C4 amended at the concrete article whose title element
carries no text. -/
theorem c4_witness :
    ∃ r, parseArticle c4WitArt = some r ∧ r.title = "No title available" :=
  (c4_amended_placeholder_title c4WitArt (Element.mk "PMID" (some "44444") [])
    (Element.mk "ArticleTitle" none []) rfl).2 rfl (Or.inl rfl)

/-- Claim C8 counterexample: an author node whose name elements are
present but carry no text contributes the literal entry `None None`. -/
theorem c8_counterexample :
    (parseArticle c8CexArt).map Article.authors = some ["None None"] := rfl

/-- Claim C8 amended: an author entry is produced exactly when both the
last-name and first-name elements are present, formatted from the
f-string over their texts, in which a missing text renders as the
Python string `None` (so a `None None` entry can occur); an author node
missing either element contributes no entry, and a record's authors
are exactly the entries so produced in document order. -/
theorem c8_amended_author_entries (author l f a : Element) (r : Article) :
    ((findChild author "LastName" = none ∨ findChild author "ForeName" = none) →
      parseAuthorEntry author = none) ∧
    (findChild author "LastName" = some l →
      findChild author "ForeName" = some f →
      parseAuthorEntry author = some (pyStr l.text ++ " " ++ pyStr f.text)) ∧
    (parseArticle a = some r →
      r.authors = (findAllDesc a "Author").filterMap parseAuthorEntry) := by
  refine ⟨?_, ?_, ?_⟩
  · intro h
    cases h with
    | inl h0 => simp [parseAuthorEntry, h0]
    | inr h0 =>
      cases hl : findChild author "LastName" <;>
        simp [parseAuthorEntry, hl, h0]
  · intro hl hf
    simp [parseAuthorEntry, hl, hf]
  · intro hr
    cases hp : findDesc a "PMID" with
    | none => rw [parseArticle_none_of_missing_pmid a hp] at hr; cases hr
    | some e =>
      cases ht : findDesc a "ArticleTitle" with
      | none => simp [parseArticle, hp, ht] at hr
      | some t =>
        rw [parseArticle_some a e t hp ht] at hr
        have hre := Option.some.inj hr
        subst hre
        rfl

/-- Witness for C8 amended: an author node with only a last name
contributes no entry. -/
theorem c8_witness :
    parseAuthorEntry
      (Element.mk "Author" none [Element.mk "LastName" (some "Solo") []]) =
      none :=
  (c8_amended_author_entries
    (Element.mk "Author" none [Element.mk "LastName" (some "Solo") []])
    (Element.mk "LastName" (some "Solo") [])
    (Element.mk "LastName" (some "Solo") [])
    (Element.mk "x" none [])
    { pmid := none, title := "", abstract := "", authors := [],
      journal := none, publication_date := none, keywords := [] }).1
    (Or.inr rfl)

/-- Claim C10 counterexample: when the journal-title element is present
without text, the emitted record's journal field is Python `None`, not
a string. -/
theorem c10_counterexample :
    (parseArticle c10Art).map Article.journal = some none := rfl

/-- Claim C10 amended: the journal field of an emitted record is the
empty string when no journal-title element exists, and otherwise that
element's text, which is null exactly when the element carries no
text. -/
theorem c10_amended_journal_field (a : Element) (r : Article)
    (h : parseArticle a = some r) :
    r.journal =
      (match findDescChild a "Journal" "Title" with
       | some j => j.text
       | none => some "") := by
  cases hp : findDesc a "PMID" with
  | none => rw [parseArticle_none_of_missing_pmid a hp] at h; cases h
  | some e =>
    cases ht : findDesc a "ArticleTitle" with
    | none => simp [parseArticle, hp, ht] at h
    | some t =>
      rw [parseArticle_some a e t hp ht] at h
      have hre := Option.some.inj h
      subst hre
      rfl

/-- Witness for C10 amended at the concrete article whose journal-title
element carries no text. -/
theorem c10_witness :
    c10Rec.journal =
      (match findDescChild c10Art "Journal" "Title" with
       | some j => j.text
       | none => some "") :=
  c10_amended_journal_field c10Art c10Rec rfl

/-- Claim C5 counterexample: a fetch payload whose top-level XML cannot
be parsed raises an uncaught parse error: no batch-level error message
is reported and no empty result is returned to the caller. -/
theorem c5_counterexample :
    fetchArticleDetails (Json.jarr [Json.jstr "1"])
      (HttpOutcome.response XmlBody.malformed) =
      ⟨[], Except.error PyExn.parseError⟩ := rfl

/-- Claim C5 amended: transport failures on either call (including
malformed JSON on the search call, a `RequestException` subclass)
report a single batch-level error message and return the empty result;
but a fetch payload whose top-level XML cannot be parsed raises a
parse error past the `except RequestException` handler instead of
being reported. -/
theorem c5_amended_failure_semantics (msg q : String) (n : Nat)
    (ss : List String) (h : ss ≠ []) (fetchHttp : HttpOutcome) :
    searchStudies q n (JsonOutcome.requestFailure msg) fetchHttp =
      ⟨["Error searching PubMed: " ++ msg], Except.ok []⟩ ∧
    fetchArticleDetails (Json.jarr (ss.map Json.jstr))
      (HttpOutcome.requestFailure msg) =
      ⟨["Error fetching article details: " ++ msg], Except.ok []⟩ ∧
    fetchArticleDetails (Json.jarr (ss.map Json.jstr))
      (HttpOutcome.response XmlBody.malformed) =
      ⟨[], Except.error PyExn.parseError⟩ := by
  refine ⟨rfl, ?_, ?_⟩
  · rw [fetchArticleDetails_strings ss h]
  · rw [fetchArticleDetails_strings ss h]

/-- Witness for C5 amended at concrete inputs. -/
theorem c5_witness :
    searchStudies "q" 20 (JsonOutcome.requestFailure "boom")
      (HttpOutcome.requestFailure "boom") =
      ⟨["Error searching PubMed: " ++ "boom"], Except.ok []⟩ ∧
    fetchArticleDetails (Json.jarr (["1"].map Json.jstr))
      (HttpOutcome.requestFailure "boom") =
      ⟨["Error fetching article details: " ++ "boom"], Except.ok []⟩ ∧
    fetchArticleDetails (Json.jarr (["1"].map Json.jstr))
      (HttpOutcome.response XmlBody.malformed) =
      ⟨[], Except.error PyExn.parseError⟩ :=
  c5_amended_failure_semantics "boom" "q" 20 ["1"] (by decide)
    (HttpOutcome.requestFailure "boom")

/-- Claim C7 counterexample: a payload in which the nested path
`esearchresult.idlist` is absent because `esearchresult` maps to a
non-dict value makes the extraction raise `AttributeError` on the
`.get` call instead of yielding the empty sequence. -/
theorem c7_counterexample :
    parseIdList (Json.jobj [("esearchresult", Json.jstr "x")]) =
      Except.error PyExn.attributeError := rfl

/-- Claim C7 amended: the extraction reads `esearchresult.idlist`; on
the nested example it yields the two ids; it yields the empty sequence
when the top-level dict lacks the `esearchresult` key or when the
nested dict lacks `idlist`; but when `esearchresult` maps to a
non-dict value it raises `AttributeError` instead of yielding the
empty sequence. -/
theorem c7_amended_idlist_extraction (fields sub : List (String × Json))
    (hmem : fields.any (fun f => f.1 = "esearchresult") = false)
    (hidl : sub.find? (fun f => f.1 = "idlist") = none) :
    parseIdList (Json.jobj [("esearchresult",
        Json.jobj [("idlist", Json.jarr [Json.jstr "1", Json.jstr "2"])])]) =
      Except.ok (Json.jarr [Json.jstr "1", Json.jstr "2"]) ∧
    parseIdList (Json.jobj fields) = Except.ok (Json.jarr []) ∧
    parseIdList (Json.jobj [("esearchresult", Json.jobj sub)]) =
      Except.ok (Json.jarr []) := by
  refine ⟨rfl, ?_, ?_⟩
  · simp [parseIdList, pyIn, hmem]
  · simp [parseIdList, pyIn, pySubscr, pyGet, hidl]

/-- Witness for C7 amended at concrete payloads. -/
theorem c7_witness :
    parseIdList (Json.jobj [("esearchresult",
        Json.jobj [("idlist", Json.jarr [Json.jstr "1", Json.jstr "2"])])]) =
      Except.ok (Json.jarr [Json.jstr "1", Json.jstr "2"]) ∧
    parseIdList (Json.jobj []) = Except.ok (Json.jarr []) ∧
    parseIdList (Json.jobj [("esearchresult", Json.jobj [])]) =
      Except.ok (Json.jarr []) :=
  c7_amended_idlist_extraction [] [] rfl rfl

/-- Claim C9 counterexample: with `maxResults = 1` and an upstream id
list of two ids whose fetch payload parses to two records, the result
set has length 2, exceeding `maxResults`: no local truncation exists. -/
theorem c9_counterexample :
    (searchStudies "glaucoma" 1 (JsonOutcome.response c9SearchJson)
      (HttpOutcome.response (XmlBody.parsed c9Root))).outcome =
      Except.ok c9Recs ∧
    c9Recs.length = 2 ∧ ¬ (c9Recs.length ≤ 1) :=
  ⟨rfl, rfl, by decide⟩

/-- Claim C9 amended: a result list returned from a parsed fetch
payload has length at most the number of article nodes in that
payload; the caller-supplied `max_results` is only forwarded upstream
as `retmax` and never enforced locally. -/
theorem c9_amended_payload_bound (q : String) (n : Nat) (j : Json)
    (root : Element) (l : List Article)
    (h : (searchStudies q n (JsonOutcome.response j)
      (HttpOutcome.response (XmlBody.parsed root))).outcome = Except.ok l) :
    l.length ≤ (findAllDesc root "PubmedArticle").length := by
  simp only [searchStudies] at h
  split at h
  · simp at h
  · split at h
    · simp at h
    · split at h
      · simp at h
      · unfold fetchArticleDetails at h
        split at h
        · simp at h
          subst h
          simp
        · split at h
          · simp at h
          · simp at h
            subst h
            simpa [parseArticles, fetchLoop] using
              List.length_filterMap_le parseArticle
                (findAllDesc root "PubmedArticle")
  · simp at h
    subst h
    simp

/-- Witness for C9 amended at the concrete payloads. -/
theorem c9_witness :
    c9Recs.length ≤ (findAllDesc c9Root "PubmedArticle").length :=
  c9_amended_payload_bound "glaucoma" 1 c9SearchJson c9Root c9Recs rfl
